import Mathlib

/-!
Verification of the ControlPod LoRaWAN radio layer.

Shallow embedding of the radio communication layer of the ControlPod
repository: the uplink codec and sender (`src/hardware/radio_rak.py`),
the serial communicator (`src/model/rak3172_comm.py`), the join-status
parsing and re-join logic, and the reconnect supervisor.

Modelling conventions:
* Python `str` values are modelled as `List Char` (`PyStr`); the string
  operations used by the code (`strip`, `upper`, `split`, substring
  containment, `startswith`, `replace(c, "")`) are defined char-by-char
  with Python semantics.
* Python floats are modelled as exact rationals; `round` is Python 3's
  round-half-to-even (`pyRound`).  All concrete inputs appearing in the
  claims are exactly representable, and the float products involved are
  exact, so the rational model agrees with IEEE-754 evaluation there.
* Python `int` is `ℤ`; `x >> 8` (arithmetic shift) and `x & 0xFF` on a
  possibly-negative int are `x / 256` and `x % 256` with Lean's
  Euclidean `Int` division, which coincides with Python's floor
  division / nonnegative remainder for positive divisors.
* Serial I/O is an environment parameter: the response lines an AT
  exchange would capture are passed in explicitly, and side effects
  (commands written, sleeps) are returned as explicit data.
-/

abbrev PyStr := List Char

/-- Python `sub in s` substring test on `PyStr`. -/
def pyContains (sub : PyStr) : PyStr → Bool
  | [] => sub.isEmpty
  | c :: rest => sub.isPrefixOf (c :: rest) || pyContains sub rest

/-- Python `s.strip()`: drop whitespace from both ends. -/
def pyStrip (s : PyStr) : PyStr :=
  ((s.dropWhile Char.isWhitespace).reverse.dropWhile Char.isWhitespace).reverse

/-- Python `s.upper()` (ASCII). -/
def pyUpper (s : PyStr) : PyStr := s.map Char.toUpper

/-- Python `line.strip().upper()` as used by `_interpret_njs`. -/
def stripUpper (s : PyStr) : PyStr := pyUpper (pyStrip s)

/-- Python `sep.join(lines)`. -/
def pyJoin (sep : PyStr) (ls : List PyStr) : PyStr := List.intercalate sep ls

/-- The hex-digit alphabet accepted by the downlink extractor
(`all(c in "0123456789abcdefABCDEF" for c in candidate)`). -/
def isHexDigitChar (c : Char) : Bool := "0123456789abcdefABCDEF".toList.contains c

/-- Uppercase hex digits (for stating the uppercase-hex invariant). -/
def isUpperHexChar (c : Char) : Bool := "0123456789ABCDEF".toList.contains c

/-! ## Uplink codec (radio_rak.py, send_data_to_chirpstack lines 282-341) -/

/-- Python 3 `round` on an exact rational: round half to even. -/
def pyRound (q : ℚ) : ℤ :=
  let n := ⌊q⌋
  let frac := q - (n : ℚ)
  if frac < 1/2 then n
  else if 1/2 < frac then n + 1
  else if n % 2 = 0 then n else n + 1

/-- The telemetry record consumed by the uplink sender: the five numeric
readings (floats, modelled as exact rationals) and four boolean flags,
after the `float(...)` / `bool(...)` normalisation of the dict lookups. -/
structure Telemetry where
  depth_ft : ℚ
  current_mA : ℚ
  voltage_V : ℚ
  start_ft : ℚ
  stop_ft : ℚ
  hi_alarm : Bool
  lo_alarm : Bool
  override : Bool
  pump_on : Bool

/-- High byte `(x >> 8) & 0xFF` of a Python int (arithmetic shift,
then mask), as written for each scaled field. -/
def byteHi (x : ℤ) : Nat := ((x / 256) % 256).toNat

/-- Low byte `x & 0xFF` of a Python int. -/
def byteLo (x : ℤ) : Nat := (x % 256).toNat

/-- The flags bitfield built by the sender:
`flags |= 0x01` for hi_alarm, `0x02` for lo_alarm, `0x04` for override,
`0x08` for pump_on. -/
def flagsByte (t : Telemetry) : Nat :=
  let f : Nat := 0
  let f := if t.hi_alarm then f ||| 0x01 else f
  let f := if t.lo_alarm then f ||| 0x02 else f
  let f := if t.override then f ||| 0x04 else f
  let f := if t.pump_on then f ||| 0x08 else f
  f

/-- The 14-byte uplink frame packed by `send_data_to_chirpstack`:
version, flags, then five big-endian u16 scaled fields and the site id. -/
def encodeFrame (t : Telemetry) (site_id : Nat) : List Nat :=
  let depth_x100 := pyRound (t.depth_ft * 100)
  let current_uA := pyRound (t.current_mA * 1000)
  let voltage_mV := pyRound (t.voltage_V * 1000)
  let start_x100 := pyRound (t.start_ft * 100)
  let stop_x100 := pyRound (t.stop_ft * 100)
  let flags := flagsByte t
  [1, flags,
   byteHi depth_x100, byteLo depth_x100,
   byteHi current_uA, byteLo current_uA,
   byteHi voltage_mV, byteLo voltage_mV,
   byteHi start_x100, byteLo start_x100,
   byteHi stop_x100, byteLo stop_x100,
   (site_id >>> 8) % 256, site_id % 256]

/-- The big-endian u16 value stored at byte offset `i` of a frame. -/
def fieldU16 (frame : List Nat) (i : Nat) : Nat :=
  frame.getD i 0 * 256 + frame.getD (i + 1) 0

/-- One lowercase hex digit, as produced by Python's `bytes.hex()`. -/
def hexDigitChar (n : Nat) : Char := "0123456789abcdef".toList.getD n '0'

/-- Python `bytes(payload).hex()`: two lowercase hex digits per byte. -/
def pyBytesHex (bs : List Nat) : PyStr :=
  bs.flatMap (fun b => [hexDigitChar (b / 16), hexDigitChar (b % 16)])

/-! ## RAK3172Communicator (model/rak3172_comm.py) -/

/-- A `send_data` payload argument: raw bytes, or a (hex) string. -/
inductive PyPayload where
  | bytes : List Nat → PyPayload
  | str : PyStr → PyPayload

/-- Model of `_normalize_hex_payload`: bytes are hex-encoded and uppercased;
strings are stripped, spaces and newlines removed, an optional `0x`/`0X`
prefix dropped, and the rest uppercased. -/
def normalize_hex_payload : PyPayload → PyStr
  | .bytes bs => pyUpper (pyBytesHex bs)
  | .str s =>
    let cleaned := ((pyStrip s).filter (fun c => c ≠ ' ')).filter (fun c => c ≠ '\n')
    let cleaned :=
      if "0x".toList.isPrefixOf cleaned || "0X".toList.isPrefixOf cleaned then
        cleaned.drop 2
      else cleaned
    pyUpper cleaned

/-- The AT command string written by `send_data`:
`f"AT+SEND=1:{hex_payload}"`. -/
def atSendCommand (p : PyPayload) : PyStr :=
  "AT+SEND=1:".toList ++ normalize_hex_payload p

/-- Model of `_check_lines`: a line stripping to exactly `"OK"`, or containing
`"+EVT:TX_DONE"`, marks the exchange successful. -/
def sendRespLineOk (l : PyStr) : Bool :=
  pyStrip l == "OK".toList || pyContains "+EVT:TX_DONE".toList l

/-- Success classification over all captured lines (`_check_lines`
applied to the initial response, extended line-by-line over the late
5-second read window; net effect: any line over the whole capture). -/
def checkLines (ls : List PyStr) : Bool := ls.any sendRespLineOk

/-- Downlink candidate in one line: line contains `"+EVT:RX_1"` and a
colon; the last colon-separated field of the stripped line, stripped,
must be a nonempty hex string; it is stored uppercased. -/
def downlinkCandidate (l : PyStr) : Option PyStr :=
  if pyContains "+EVT:RX_1".toList l && pyContains ":".toList l then
    let parts := (pyStrip l).splitOn ':'
    let candidate := pyStrip (parts.getLastD [])
    if !candidate.isEmpty && candidate.all isHexDigitChar then
      some (pyUpper candidate)
    else none
  else none

/-- The downlink scan of `send_data`: iterate the captured lines in
reverse and take the first valid candidate. -/
def findDownlink (ls : List PyStr) : Option PyStr :=
  ls.reverse.findSome? downlinkCandidate

/-- The communicator's mutable state: the single-slot pending-downlink
mailbox and the lines of the most recent `AT+SEND` exchange. -/
structure CommState where
  last_downlink : Option PyStr
  last_response_lines : List PyStr
deriving DecidableEq

/-- What one call to `RAK3172Communicator.send_data` produces: the
returned status string, the updated state, and the command written to
the serial port.  `respLines` are the lines captured by the initial
2-second `send_command` read, `lateLines` those captured during the
5-second late-event window (environment inputs).  Because
`last_response_lines` aliases the list that the late window appends to,
it ends up holding the concatenation. -/
structure SendDataResult where
  ret : PyStr
  state : CommState
  written : PyStr
deriving DecidableEq

/-- Model of `RAK3172Communicator.send_data` (model/rak3172_comm.py lines 109-163). -/
def send_data_model (st : CommState) (payload : PyPayload)
    (respLines lateLines : List PyStr) : SendDataResult :=
  let written := atSendCommand payload
  let allLines := respLines ++ lateLines
  let success := checkLines allLines
  let newDownlink :=
    match findDownlink allLines with
    | some d => some d
    | none => st.last_downlink
  let st' : CommState := ⟨newDownlink, allLines⟩
  if success then ⟨"OK".toList, st', written⟩
  else if allLines.isEmpty then ⟨"ERROR".toList, st', written⟩
  else ⟨"ERROR:".toList ++ pyJoin "|".toList allLines, st', written⟩

/-- Model of `RAK3172Communicator.check_downlink`: return the pending downlink
(if truthy) and clear it, else `none` with the state unchanged. -/
def check_downlink_model (st : CommState) : Option PyStr × CommState :=
  match st.last_downlink with
  | some d => if d.isEmpty then (none, st) else (some d, ⟨none, st.last_response_lines⟩)
  | none => (none, st)

/-! ## Join-status parsing and re-join (hardware/radio_rak.py) -/

/-- Model of `_parse_njs_response`: skip blank lines and the firmware help text;
a line containing `"NJS"` and `"1"`, or stripping to exactly `"1"`,
means joined. -/
def parse_njs_response (lines : List PyStr) : Bool :=
  lines.any fun line =>
    let s := pyStrip line
    !s.isEmpty && !pyContains "get the join status".toList s &&
      ((pyContains "NJS".toList s && pyContains "1".toList s) || s == "1".toList)

/-- One loop iteration of `_interpret_njs`, folding the
`(joined, not_joined)` pair over a response line. -/
def interpret_step (acc : Bool × Bool) (line : PyStr) : Bool × Bool :=
  let s := stripUpper line
  if s.isEmpty then acc
  else
    let j := acc.1
    let nj := acc.2 || pyContains "AT_NO_NETWORK_JOINED".toList s
    if pyContains "NJS".toList s then
      if pyContains "1".toList s then (true, nj)
      else if pyContains "0".toList s then (j, true)
      else (j, nj)
    else if s == "1".toList then (true, nj)
    else if s == "0".toList then (j, true)
    else (j, nj)

/-- Model of `_interpret_njs`: returns `(joined, not_joined)` accumulated over
all response lines. -/
def interpret_njs (lines : List PyStr) : Bool × Bool :=
  lines.foldl interpret_step (false, false)

/-- Observable side effects of the join machinery: an `AT+JOIN` command
issued, a blocking sleep of the given number of seconds, and a
join-status query. -/
inductive RakAction where
  | joinCmd : RakAction
  | sleep : Nat → RakAction
  | njsQuery : RakAction
deriving DecidableEq

/-- Per-attempt environment of the re-join loop: whether the
`AT+JOIN` command exchange succeeded without raising, and the response
lines of the subsequent `_query_join_status` re-check. -/
structure JoinAttemptEnv where
  cmdOk : Bool
  recheck : List PyStr

/-- The re-join loop of `ensure_joined` (attempts `k, k+1, ...`, with
`fuel` attempts remaining).  A raised join command skips the sleep and
the re-check (`continue`); otherwise the attempt sleeps 10 seconds,
re-queries, and stops as soon as `_parse_njs_response` reports joined. -/
def joinLoop (env : Nat → JoinAttemptEnv) : Nat → Nat → Bool × List RakAction
  | _, 0 => (false, [])
  | k, Nat.succ fuel =>
    if !(env k).cmdOk then
      let r := joinLoop env (k + 1) fuel
      (r.1, RakAction.joinCmd :: r.2)
    else if parse_njs_response (env k).recheck then
      (true, [RakAction.joinCmd, RakAction.sleep 10, RakAction.njsQuery])
    else
      let r := joinLoop env (k + 1) fuel
      (r.1, RakAction.joinCmd :: RakAction.sleep 10 :: RakAction.njsQuery :: r.2)

/-- Default `max_join_attempts` of `ensure_joined`. -/
def defaultMaxJoinAttempts : Nat := 2

/-- Model of `ensure_joined` (radio_rak.py lines 216-256): interpret the join
status query (`njsResp` is what `_query_join_status` returned); joined
or ambiguous/empty responses return `true` with no join attempted; a
confirmed not-joined result runs the bounded re-join loop.  Returns the
result together with the trace of join actions performed. -/
def ensure_joined_model (njsResp : List PyStr) (env : Nat → JoinAttemptEnv)
    (maxJoinAttempts : Nat) : Bool × List RakAction :=
  let jn := interpret_njs njsResp
  if jn.1 then (true, [])
  else if jn.2 then joinLoop env 1 maxJoinAttempts
  else (true, [])

/-! ## Uplink sender (hardware/radio_rak.py, send_data_to_chirpstack) -/

/-- The `_NJS_CHECK_INTERVAL` constant. -/
def NJS_CHECK_INTERVAL : Nat := 10

/-- The parameter list of `RAK3172Communicator.send_data` (besides
`self`): it accepts only `payload`. -/
def send_data_param_names : List String := ["payload"]

/-- The keyword-argument names the uplink sender passes to
`rak.send_data(payload_hex, port=1, confirmed=confirmed,
use_port_format=False)`. -/
def send_data_call_kwnames : List String := ["port", "confirmed", "use_port_format"]

/-- Python call binding succeeds only if every keyword argument names a
parameter of the callee; otherwise the call raises `TypeError` before
the callee body runs. -/
def send_data_kwargs_ok : Bool :=
  send_data_call_kwnames.all (fun k => send_data_param_names.contains k)

/-- Response interpretation of the uplink sender (radio_rak.py lines
360-383): a nonempty response containing `AT_NO_NETWORK_JOINED` fails;
else a raw line containing `TX_DONE` (case-insensitively) succeeds;
else any raw line containing `ERROR` fails; else a nonempty response
whose uppercase form starts with `OK` is a best-effort success. -/
def evalUplinkResponse (resp_str : PyStr) (raw_lines : List PyStr) : Bool :=
  let has_tx_done := raw_lines.any fun l => pyContains "TX_DONE".toList (pyUpper l)
  let _has_param_error :=
    raw_lines.any (fun l => pyContains "AT_PARAM_ERROR".toList (pyUpper l)) ||
      (!resp_str.isEmpty && pyContains "AT_PARAM_ERROR".toList (pyUpper resp_str))
  let no_network := !resp_str.isEmpty && pyContains "AT_NO_NETWORK_JOINED".toList resp_str
  if no_network then false
  else if has_tx_done then true
  else if raw_lines.any (fun l => pyContains "ERROR".toList (pyUpper l)) then false
  else !resp_str.isEmpty && "OK".toList.isPrefixOf (pyUpper resp_str)

/-- Outcome of one `send_data_to_chirpstack` call: the returned bool,
the new send counter, whether `ensure_joined` was invoked, whether the
`AT+SEND` path reached the communicator's transport, and the resulting
communicator state. -/
structure SendOutcome where
  result : Bool
  counter : Nat
  ensureJoinedCalled : Bool
  atSendSent : Bool
  commState : CommState

/-- The `try:` body of the sender from the frame packing onwards: packs
the frame, hex-encodes it lowercase, and calls
`rak.send_data(payload_hex, port=1, confirmed=..., use_port_format=False)`.
The keyword binding against `send_data(self, payload)` raises
`TypeError` before any transport activity; the enclosing
`except Exception` handler turns any raise into `False`. -/
def attemptSend (st : CommState) (t : Telemetry) (siteId : Nat)
    (respLines lateLines : List PyStr) : Bool × Bool × CommState :=
  let payload := encodeFrame t siteId
  let payload_hex := pyBytesHex payload
  if send_data_kwargs_ok then
    let r := send_data_model st (.str payload_hex) respLines lateLines
    (evalUplinkResponse (pyStrip r.ret) r.state.last_response_lines, true, r.state)
  else
    (false, false, st)

/-- Model of `send_data_to_chirpstack` (radio_rak.py lines 259-387) for a real
communicator: bump the send counter; at the check interval reset it and
consult `ensure_joined` (its result is the environment parameter
`ejResult`); on failure skip the send; otherwise run the `try:` body. -/
def send_to_chirpstack_model (st : CommState) (counter : Nat) (ejResult : Bool)
    (t : Telemetry) (siteId : Nat) (respLines lateLines : List PyStr) : SendOutcome :=
  let counter' := counter + 1
  if NJS_CHECK_INTERVAL ≤ counter' then
    if !ejResult then
      ⟨false, 0, true, false, st⟩
    else
      let r := attemptSend st t siteId respLines lateLines
      ⟨r.1, 0, true, r.2.1, r.2.2⟩
  else
    let r := attemptSend st t siteId respLines lateLines
    ⟨r.1, counter', false, r.2.1, r.2.2⟩

/-! ## Connect / reconnect supervisor (hardware/radio_rak.py) -/

/-- The `MAX_RETRIES` constant (config). -/
def MAX_RETRIES : Nat := 5

/-- The attempt loop of `connect`: attempt `k` succeeds iff `env k`;
a success returns the fresh session (tagged with its attempt index)
after that one attempt, a failure sleeps and retries; the pair's second
component counts attempts made. -/
def connectLoop (env : Nat → Bool) : Nat → Nat → Option Nat × Nat
  | _, 0 => (none, 0)
  | k, Nat.succ fuel =>
    if env k then (some k, 1)
    else
      let r := connectLoop env (k + 1) fuel
      (r.1, r.2 + 1)

/-- Model of `connect` (radio_rak.py lines 138-213): up to `maxRetries` attempts,
`none` when all fail.  Each attempt builds a fresh communicator and runs
the full setup/join sequence; which attempt succeeds is environment. -/
def connect_model (env : Nat → Bool) (maxRetries : Nat) : Option Nat × Nat :=
  connectLoop env 1 maxRetries

/-- The module-level radio state touched by `reconnect_rak`: the send
counter, plus whether the serial handle of the communicator being
replaced is still open (`reconnect_rak` receives that communicator as
its argument). -/
structure RadioState where
  njsSendCounter : Nat
  oldTransportOpen : Bool
deriving DecidableEq

/-- Model of `reconnect_rak` (radio_rak.py lines 390-394): reset the send counter
to zero and call `connect()` again.  The old communicator passed in is
not closed or otherwise touched. -/
def reconnect_model (st : RadioState) (env : Nat → Bool) (maxRetries : Nat) :
    (Option Nat × Nat) × RadioState :=
  (connect_model env maxRetries, ⟨0, st.oldTransportOpen⟩)

/-- Checks that every issued join command is immediately followed by the
10-second settle sleep and a status re-query. -/
def joinsFollowedByRecheck : List RakAction → Bool
  | [] => true
  | RakAction.joinCmd :: RakAction.sleep 10 :: RakAction.njsQuery :: rest =>
      joinsFollowedByRecheck rest
  | RakAction.joinCmd :: _ => false
  | _ :: rest => joinsFollowedByRecheck rest


/-! ## Helper lemmas -/

/-- Rounding an exact integer returns that integer. -/
lemma pyRound_intCast (n : ℤ) : pyRound ((n : ℚ)) = n := by
  simp [pyRound]

/-- The two extracted bytes of a scaled field recompose to the value
taken modulo 2^16. -/
lemma byte_compose (x : ℤ) : byteHi x * 256 + byteLo x = (x % 65536).toNat := by
  simp only [byteHi, byteLo]
  omega

/-- A nonempty pattern is never contained in the empty string. -/
lemma isEmpty_false_of_pyContains {sub s : PyStr} (h : pyContains sub s = true)
    (hsub : sub.isEmpty = false) : s.isEmpty = false := by
  cases s with
  | nil => simp [pyContains, hsub] at h
  | cons c rest => rfl

/-! ## C1: scaled-field encoding -/

/-- C1 (counterexample): the codec does not clamp.  With depth = -1.0 ft
the depth field encodes as 65436 (= -100 mod 2^16), not 0 as the claim
states for negative inputs; with current = 70.0 mA the current field
encodes as 4464 (= 70000 mod 2^16), not min(70000, 65535) = 65535. -/
theorem C1_no_clamp_counterexample :
    fieldU16 (encodeFrame ⟨-1, 0, 0, 0, 0, false, false, false, false⟩ 0x008B) 2 = 65436
    ∧ fieldU16 (encodeFrame ⟨0, 70, 0, 0, 0, false, false, false, false⟩ 0x008B) 4 = 4464
    ∧ (65436 : Nat) ≠ 0 ∧ (4464 : Nat) ≠ 65535 := by
  have hneg : pyRound ((-1 : ℚ) * 100) = -100 := by
    rw [show ((-1 : ℚ) * 100) = ((-100 : ℤ) : ℚ) by norm_num, pyRound_intCast]
  have hbig : pyRound ((70 : ℚ) * 1000) = 70000 := by
    rw [show ((70 : ℚ) * 1000) = ((70000 : ℤ) : ℚ) by norm_num, pyRound_intCast]
  refine ⟨?_, ?_, by norm_num, by norm_num⟩
  · dsimp only [encodeFrame, fieldU16]
    rw [hneg]
    decide
  · dsimp only [encodeFrame, fieldU16]
    rw [hbig]
    decide

/-- C1 (amended): each scaled numeric field of the 14-byte frame equals
round(value*scale) reduced modulo 2^16 — values whose rounded scaled
form lies in [0, 65535] are encoded exactly, while negative or
oversized values wrap modulo 65536 instead of clamping. -/
theorem C1_scaled_fields_mod_u16 (t : Telemetry) (siteId : Nat) :
    fieldU16 (encodeFrame t siteId) 2 = ((pyRound (t.depth_ft * 100)) % 65536).toNat
    ∧ fieldU16 (encodeFrame t siteId) 4 = ((pyRound (t.current_mA * 1000)) % 65536).toNat
    ∧ fieldU16 (encodeFrame t siteId) 6 = ((pyRound (t.voltage_V * 1000)) % 65536).toNat
    ∧ fieldU16 (encodeFrame t siteId) 8 = ((pyRound (t.start_ft * 100)) % 65536).toNat
    ∧ fieldU16 (encodeFrame t siteId) 10 = ((pyRound (t.stop_ft * 100)) % 65536).toNat
    ∧ (∀ x : ℤ, 0 ≤ x → x ≤ 65535 → byteHi x * 256 + byteLo x = x.toNat) := by
  refine ⟨byte_compose _, byte_compose _, byte_compose _, byte_compose _, byte_compose _, ?_⟩
  intro x h1 h2
  simp only [byteHi, byteLo]
  omega

/-- C1 witness: the amended theorem applied at a concrete telemetry
record, with the in-range clause discharged at x = 123. -/
theorem C1_scaled_fields_mod_u16_witness :
    fieldU16 (encodeFrame ⟨123/100, 4, 1/2, 9/10, 4/5, false, false, false, true⟩ 0x008B) 2 =
      ((pyRound (((123 : ℚ)/100) * 100)) % 65536).toNat
    ∧ byteHi 123 * 256 + byteLo 123 = (123 : ℤ).toNat :=
  ⟨(C1_scaled_fields_mod_u16 ⟨123/100, 4, 1/2, 9/10, 4/5, false, false, false, true⟩ 0x008B).1,
   (C1_scaled_fields_mod_u16 ⟨123/100, 4, 1/2, 9/10, 4/5, false, false, false, true⟩ 0x008B).2.2.2.2.2
     123 (by decide) (by decide)⟩

/-! ## C3: end-to-end frame scenario -/

/-- C3: the concrete telemetry {depth=1.23, current=4.0 mA, voltage=0.5 V,
start=0.9, stop=0.8, pump_on only} with site id 0x008B encodes to exactly
01 08 00 7B 0F A0 01 F4 00 5A 00 50 00 8B; and for every combination of
the four booleans the flags byte at offset 1 is the OR of the
contributions hi_alarm=bit0, lo_alarm=bit1, override=bit2, pump_on=bit3
(in particular hi_alarm with pump_on gives 0x09). -/
theorem C3_concrete_frame_and_flags :
    encodeFrame ⟨123/100, 4, 1/2, 9/10, 4/5, false, false, false, true⟩ 0x008B =
      [0x01, 0x08, 0x00, 0x7B, 0x0F, 0xA0, 0x01, 0xF4, 0x00, 0x5A, 0x00, 0x50, 0x00, 0x8B]
    ∧ (∀ b1 b2 b3 b4 : Bool,
        (encodeFrame ⟨123/100, 4, 1/2, 9/10, 4/5, b1, b2, b3, b4⟩ 0x008B).getD 1 0 =
          (cond b1 0x01 0 ||| cond b2 0x02 0 ||| cond b3 0x04 0 ||| cond b4 0x08 0))
    ∧ (encodeFrame ⟨123/100, 4, 1/2, 9/10, 4/5, true, false, false, true⟩ 0x008B).getD 1 0 = 0x09 := by
  have hd : pyRound ((123 : ℚ)/100 * 100) = 123 := by
    rw [show ((123 : ℚ)/100 * 100) = ((123 : ℤ) : ℚ) by norm_num, pyRound_intCast]
  have hc : pyRound ((4 : ℚ) * 1000) = 4000 := by
    rw [show ((4 : ℚ) * 1000) = ((4000 : ℤ) : ℚ) by norm_num, pyRound_intCast]
  have hv : pyRound ((1 : ℚ)/2 * 1000) = 500 := by
    rw [show ((1 : ℚ)/2 * 1000) = ((500 : ℤ) : ℚ) by norm_num, pyRound_intCast]
  have hs : pyRound ((9 : ℚ)/10 * 100) = 90 := by
    rw [show ((9 : ℚ)/10 * 100) = ((90 : ℤ) : ℚ) by norm_num, pyRound_intCast]
  have hp : pyRound ((4 : ℚ)/5 * 100) = 80 := by
    rw [show ((4 : ℚ)/5 * 100) = ((80 : ℤ) : ℚ) by norm_num, pyRound_intCast]
  refine ⟨?_, ?_, ?_⟩
  · dsimp only [encodeFrame]
    rw [hd, hc, hv, hs, hp]
    decide
  · intro b1 b2 b3 b4
    show flagsByte ⟨123/100, 4, 1/2, 9/10, 4/5, b1, b2, b3, b4⟩ = _
    cases b1 <;> cases b2 <;> cases b3 <;> cases b4 <;> decide
  · show flagsByte ⟨123/100, 4, 1/2, 9/10, 4/5, true, false, false, true⟩ = 0x09
    decide

/-! ## C2: the broken send_data call path -/

/-- C2: for every telemetry record and communicator state, the uplink
sender returns false and the AT+SEND path never reaches the transport:
the keyword arguments it passes do not bind against
`RAK3172Communicator.send_data(self, payload)`, so the call raises
`TypeError`, which the enclosing handler converts to `False`. -/
theorem C2_send_always_false :
    send_data_kwargs_ok = false
    ∧ ∀ (st : CommState) (counter : Nat) (ej : Bool) (t : Telemetry) (siteId : Nat)
        (resp late : List PyStr),
        (send_to_chirpstack_model st counter ej t siteId resp late).result = false
        ∧ (send_to_chirpstack_model st counter ej t siteId resp late).atSendSent = false := by
  refine ⟨by decide, ?_⟩
  intro st counter ej t siteId resp late
  have hk : send_data_kwargs_ok = false := by decide
  simp only [send_to_chirpstack_model, attemptSend, hk]
  split <;> (try split) <;> simp_all

/-! ## C4: exchange classification -/

/-- C4: classification of one AT+SEND exchange.  A captured line "OK" or
one containing "+EVT:TX_DONE" yields success ("OK" returned) wherever it
occurs among the captured lines; ["ERROR"] yields a failure return
prefixed "ERROR"; an empty capture returns the no-response failure
"ERROR". -/
theorem C4_send_classification :
    (send_data_model ⟨none, []⟩ (.str []) ["OK".toList] []).ret = "OK".toList
    ∧ (send_data_model ⟨none, []⟩ (.str []) ["+EVT:TX_DONE".toList] []).ret = "OK".toList
    ∧ (send_data_model ⟨none, []⟩ (.str []) ["ERROR".toList] []).ret = "ERROR:ERROR".toList
    ∧ (send_data_model ⟨none, []⟩ (.str []) ["ERROR".toList] []).ret ≠ "OK".toList
    ∧ (send_data_model ⟨none, []⟩ (.str []) [] []).ret = "ERROR".toList
    ∧ (∀ (st : CommState) (p : PyPayload) (pre post late : List PyStr) (l : PyStr),
        sendRespLineOk l = true →
        checkLines (pre ++ l :: post) = true
        ∧ (send_data_model st p (pre ++ l :: post) late).ret = "OK".toList) := by
  refine ⟨by decide, by decide, by decide, by decide, by decide, ?_⟩
  intro st p pre post late l hl
  have hc : checkLines (pre ++ l :: post) = true := by
    simp [checkLines, List.any_append, hl]
  refine ⟨hc, ?_⟩
  have hall : checkLines (pre ++ l :: (post ++ late)) = true := by
    simp [checkLines, List.any_append, hl]
  simp [send_data_model, hall]

/-! ## C5: downlink extractor -/

/-- C4 witness: the universal clause applied with a leading non-marker
line and the marker line "OK". -/
theorem C4_send_classification_witness :
    checkLines (["X".toList] ++ "OK".toList :: []) = true
    ∧ (send_data_model ⟨none, []⟩ (.str []) (["X".toList] ++ "OK".toList :: []) []).ret
        = "OK".toList :=
  C4_send_classification.2.2.2.2.2 ⟨none, []⟩ (.str []) ["X".toList] [] [] "OK".toList (by decide)

/-- C5: downlink extraction and the single-slot mailbox.  The captured
line "+EVT:RX_1:...:1A2B3C" stores payload "1A2B3C"; the next
check_downlink returns it and clears the slot, and a further call with
no new activity returns none; a newly detected event overwrites any
unconsumed value; consuming clears the slot. -/
theorem C5_downlink_single_slot :
    (let st1 := (send_data_model ⟨none, []⟩ (.str []) ["+EVT:RX_1:...:1A2B3C".toList] []).state
     st1.last_downlink = some "1A2B3C".toList
     ∧ (check_downlink_model st1).1 = some "1A2B3C".toList
     ∧ (check_downlink_model (check_downlink_model st1).2).1 = none)
    ∧ (∀ (st : CommState) (p : PyPayload) (resp late : List PyStr) (d : PyStr),
        findDownlink (resp ++ late) = some d →
        (send_data_model st p resp late).state.last_downlink = some d)
    ∧ (∀ (st : CommState) (d : PyStr), st.last_downlink = some d → d ≠ [] →
        (check_downlink_model st).1 = some d
        ∧ (check_downlink_model st).2.last_downlink = none)
    ∧ (∀ st : CommState, st.last_downlink = none → check_downlink_model st = (none, st)) := by
  refine ⟨by decide, ?_, ?_, ?_⟩
  · intro st p resp late d h
    simp only [send_data_model, h]
    split <;> (try split) <;> rfl
  · intro st d hd hne
    have he : d.isEmpty = false := by
      cases d with
      | nil => exact absurd rfl hne
      | cons c cs => rfl
    constructor <;> simp [check_downlink_model, hd, he]
  · intro st h
    simp [check_downlink_model, h]

/-! ## C7: uplink response interpretation -/

/-- C5 witness: the consume-clears clause applied to a state holding the
payload "1A2B3C". -/
theorem C5_downlink_single_slot_witness :
    (check_downlink_model ⟨some "1A2B3C".toList, []⟩).1 = some "1A2B3C".toList
    ∧ (check_downlink_model ⟨some "1A2B3C".toList, []⟩).2.last_downlink = none :=
  C5_downlink_single_slot.2.2.1 ⟨some "1A2B3C".toList, []⟩ "1A2B3C".toList rfl (by decide)

/-- C7: interpretation of the AT+SEND response by the uplink sender, in
the order the code checks: a response containing the no-network marker
fails; otherwise a raw line containing TX_DONE (case-insensitively)
succeeds; otherwise any raw line containing ERROR fails; otherwise the
result is success exactly when the (uppercased) response starts with
"OK". -/
theorem C7_uplink_response_cases :
    (∀ (resp : PyStr) (raw : List PyStr),
        pyContains "AT_NO_NETWORK_JOINED".toList resp = true →
        evalUplinkResponse resp raw = false)
    ∧ (∀ (resp : PyStr) (raw : List PyStr),
        pyContains "AT_NO_NETWORK_JOINED".toList resp = false →
        raw.any (fun l => pyContains "TX_DONE".toList (pyUpper l)) = true →
        evalUplinkResponse resp raw = true)
    ∧ (∀ (resp : PyStr) (raw : List PyStr),
        pyContains "AT_NO_NETWORK_JOINED".toList resp = false →
        raw.any (fun l => pyContains "TX_DONE".toList (pyUpper l)) = false →
        raw.any (fun l => pyContains "ERROR".toList (pyUpper l)) = true →
        evalUplinkResponse resp raw = false)
    ∧ (∀ (resp : PyStr) (raw : List PyStr),
        pyContains "AT_NO_NETWORK_JOINED".toList resp = false →
        raw.any (fun l => pyContains "TX_DONE".toList (pyUpper l)) = false →
        raw.any (fun l => pyContains "ERROR".toList (pyUpper l)) = false →
        (evalUplinkResponse resp raw = true ↔
          "OK".toList.isPrefixOf (pyUpper resp) = true)) := by
  refine ⟨?_, ?_, ?_, ?_⟩
  · intro resp raw h
    have he : resp.isEmpty = false := isEmpty_false_of_pyContains h (by decide)
    simp only [evalUplinkResponse]
    rw [h, he]
    simp
  · intro resp raw h htx
    simp only [evalUplinkResponse]
    rw [h, htx]
    simp
  · intro resp raw h htx herr
    simp only [evalUplinkResponse]
    rw [h, htx, herr]
    simp
  · intro resp raw h htx herr
    simp only [evalUplinkResponse]
    rw [h, htx, herr]
    cases resp with
    | nil => simp [pyUpper, List.isPrefixOf]
    | cons c cs => simp
/-- C7 witness: the no-network clause at a concrete response, and the
OK-prefix clause at response "ok" with no raw lines. -/
theorem C7_uplink_response_cases_witness :
    evalUplinkResponse "AT_NO_NETWORK_JOINED".toList [] = false
    ∧ (evalUplinkResponse "ok".toList [] = true ↔
        "OK".toList.isPrefixOf (pyUpper "ok".toList) = true) :=
  ⟨C7_uplink_response_cases.1 "AT_NO_NETWORK_JOINED".toList [] (by decide),
   C7_uplink_response_cases.2.2.2 "ok".toList [] (by decide) (by decide) (by decide)⟩

/-! ## C6: join-status parse and ensure_joined -/

/-- One `interpret_step` never clears an accumulated joined flag. -/
lemma interpret_step_fst_mono (acc : Bool × Bool) (l : PyStr) (h : acc.1 = true) :
    (interpret_step acc l).1 = true := by
  obtain ⟨j, nj⟩ := acc
  simp only at h
  subst h
  simp only [interpret_step]
  split_ifs <;> rfl

/-- One `interpret_step` never clears an accumulated not-joined flag. -/
lemma interpret_step_snd_mono (acc : Bool × Bool) (l : PyStr) (h : acc.2 = true) :
    (interpret_step acc l).2 = true := by
  obtain ⟨j, nj⟩ := acc
  simp only at h
  subst h
  simp only [interpret_step]
  split_ifs <;> simp

/-- Folding more lines keeps the joined flag set. -/
lemma interpret_foldl_fst_mono (ls : List PyStr) (acc : Bool × Bool) (h : acc.1 = true) :
    (ls.foldl interpret_step acc).1 = true := by
  induction ls generalizing acc with
  | nil => exact h
  | cons l rest ih => exact ih _ (interpret_step_fst_mono _ _ h)

/-- Folding more lines keeps the not-joined flag set. -/
lemma interpret_foldl_snd_mono (ls : List PyStr) (acc : Bool × Bool) (h : acc.2 = true) :
    (ls.foldl interpret_step acc).2 = true := by
  induction ls generalizing acc with
  | nil => exact h
  | cons l rest ih => exact ih _ (interpret_step_snd_mono _ _ h)

/-- A line whose stripped uppercase form contains both "NJS" and "1"
sets the joined flag. -/
lemma interpret_step_sets_joined (acc : Bool × Bool) (l : PyStr)
    (h1 : pyContains "NJS".toList (stripUpper l) = true)
    (h2 : pyContains "1".toList (stripUpper l) = true) :
    (interpret_step acc l).1 = true := by
  have he : (stripUpper l).isEmpty = false := isEmpty_false_of_pyContains h1 (by decide)
  simp only [interpret_step]
  rw [he, h1, h2]
  simp

/-- A line containing the explicit no-network marker, or containing
"NJS" with "0" but not "1", or stripping to exactly "0", sets the
not-joined flag. -/
lemma interpret_step_sets_notjoined (acc : Bool × Bool) (l : PyStr)
    (h : pyContains "AT_NO_NETWORK_JOINED".toList (stripUpper l) = true
      ∨ (pyContains "NJS".toList (stripUpper l) = true
          ∧ pyContains "1".toList (stripUpper l) = false
          ∧ pyContains "0".toList (stripUpper l) = true)
      ∨ stripUpper l = "0".toList) :
    (interpret_step acc l).2 = true := by
  rcases h with h | ⟨h1, h2, h3⟩ | h
  · have he : (stripUpper l).isEmpty = false := isEmpty_false_of_pyContains h (by decide)
    simp only [interpret_step]
    rw [he, h]
    split_ifs <;> simp_all
  · have he : (stripUpper l).isEmpty = false := isEmpty_false_of_pyContains h1 (by decide)
    simp only [interpret_step]
    rw [he, h1, h2, h3]
    simp
  · simp only [interpret_step]
    rw [h]
    simp only [show ("0".toList : PyStr).isEmpty = false from rfl]
    rw [show pyContains "AT_NO_NETWORK_JOINED".toList "0".toList = false from by decide,
      show pyContains "NJS".toList "0".toList = false from by decide]
    simp
/-- C6 (counterexample): the line "A0" contains "0" yet `_interpret_njs`
parses it as neither joined nor not-joined (Unknown), so `ensure_joined`
assumes joined and returns true without re-joining — the claim's "a line
containing '0' is parsed as NotJoined" fails on it. -/
theorem C6_contains_zero_counterexample :
    pyContains "0".toList "A0".toList = true
    ∧ interpret_njs ["A0".toList] = (false, false)
    ∧ ensure_joined_model ["A0".toList] (fun _ => ⟨false, []⟩) defaultMaxJoinAttempts
        = (true, []) := by
  decide

/-- C6 (amended): a response line whose stripped uppercase form contains
both "NJS" and "1" parses as Joined, and a joined parse makes
ensure_joined return true with no join actions; the NotJoined flag is
set by a line containing the explicit no-network marker, or containing
"NJS" and "0" without "1", or exactly equal to "0"; an empty response
parses as Unknown and ensure_joined likewise returns true without any
join attempt. -/
theorem C6_join_status_parse :
    (∀ (lines : List PyStr) (l : PyStr), l ∈ lines →
        pyContains "NJS".toList (stripUpper l) = true →
        pyContains "1".toList (stripUpper l) = true →
        (interpret_njs lines).1 = true)
    ∧ (∀ (lines : List PyStr) (env : Nat → JoinAttemptEnv) (m : Nat),
        (interpret_njs lines).1 = true →
        ensure_joined_model lines env m = (true, []))
    ∧ (∀ (lines : List PyStr) (l : PyStr), l ∈ lines →
        (pyContains "AT_NO_NETWORK_JOINED".toList (stripUpper l) = true
          ∨ (pyContains "NJS".toList (stripUpper l) = true
              ∧ pyContains "1".toList (stripUpper l) = false
              ∧ pyContains "0".toList (stripUpper l) = true)
          ∨ stripUpper l = "0".toList) →
        (interpret_njs lines).2 = true)
    ∧ (∀ (env : Nat → JoinAttemptEnv) (m : Nat),
        ensure_joined_model [] env m = (true, [])) := by
  refine ⟨?_, ?_, ?_, ?_⟩
  · intro lines l hl h1 h2
    obtain ⟨pre, post, rfl⟩ := List.append_of_mem hl
    simp only [interpret_njs, List.foldl_append, List.foldl_cons]
    exact interpret_foldl_fst_mono _ _ (interpret_step_sets_joined _ _ h1 h2)
  · intro lines env m h
    simp [ensure_joined_model, h]
  · intro lines l hl h
    obtain ⟨pre, post, rfl⟩ := List.append_of_mem hl
    simp only [interpret_njs, List.foldl_append, List.foldl_cons]
    exact interpret_foldl_snd_mono _ _ (interpret_step_sets_notjoined _ _ h)
  · intro env m
    simp [ensure_joined_model, interpret_njs]

/-- C6 witness: the three conditional clauses applied at concrete
response lines. -/
theorem C6_join_status_parse_witness :
    (interpret_njs ["+NJS:1".toList]).1 = true
    ∧ ensure_joined_model ["+NJS:1".toList] (fun _ => ⟨false, []⟩) 2 = (true, [])
    ∧ (interpret_njs ["+NJS:0".toList]).2 = true :=
  ⟨C6_join_status_parse.1 ["+NJS:1".toList] "+NJS:1".toList (List.mem_singleton_self _)
      (by decide) (by decide),
   C6_join_status_parse.2.1 ["+NJS:1".toList] (fun _ => ⟨false, []⟩) 2 (by decide),
   C6_join_status_parse.2.2.1 ["+NJS:0".toList] "+NJS:0".toList (List.mem_singleton_self _)
      (Or.inr (Or.inl ⟨by decide, by decide, by decide⟩))⟩
/-! ## C8: reconnect supervisor -/

/-- The connect loop never makes more attempts than its budget. -/
lemma connectLoop_count_le (env : Nat → Bool) :
    ∀ (k n : Nat), (connectLoop env k n).2 ≤ n := by
  intro k n
  induction n generalizing k with
  | zero => simp [connectLoop]
  | succ n ih =>
    simp only [connectLoop]
    split
    · simp
    · simpa using ih (k + 1)

/-- If every attempt fails, the connect loop uses its whole budget and
returns none. -/
lemma connectLoop_all_fail (env : Nat → Bool) (h : ∀ j, env j = false) :
    ∀ (k n : Nat), connectLoop env k n = (none, n) := by
  intro k n
  induction n generalizing k with
  | zero => rfl
  | succ n ih =>
    simp only [connectLoop, h k]
    simp [ih (k + 1)]

/-- C8 (counterexample): reconnecting with the old transport still open
and every connect attempt failing leaves the old transport open — the
claim's "closes the existing Transport if still open" does not happen —
while the counter is reset and `none` is returned after `MAX_RETRIES`
(= 5) attempts. -/
theorem C8_reconnect_counterexample :
    reconnect_model ⟨7, true⟩ (fun _ => false) MAX_RETRIES = ((none, 5), ⟨0, true⟩) := by
  decide

/-- C8 (amended): reconnect resets the send counter to zero, leaves the
old transport exactly as it was (it is never closed), and re-runs the
connect sequence, which makes at most `maxRetries` attempts and returns
`none` (after exactly `maxRetries` attempts) when every attempt fails. -/
theorem C8_reconnect_bounded (st : RadioState) (env : Nat → Bool) (m : Nat) :
    (reconnect_model st env m).2.njsSendCounter = 0
    ∧ (reconnect_model st env m).2.oldTransportOpen = st.oldTransportOpen
    ∧ (reconnect_model st env m).1 = connect_model env m
    ∧ (connect_model env m).2 ≤ m
    ∧ ((∀ j, env j = false) → connect_model env m = (none, m)) :=
  ⟨rfl, rfl, rfl, connectLoop_count_le env 1 m,
   fun h => connectLoop_all_fail env h 1 m⟩

/-- C8 witness: the all-fail clause at the constant-false environment
and the default retry budget. -/
theorem C8_reconnect_bounded_witness :
    connect_model (fun _ => false) MAX_RETRIES = (none, MAX_RETRIES) :=
  (C8_reconnect_bounded ⟨0, false⟩ (fun _ => false) MAX_RETRIES).2.2.2.2 (fun _ => rfl)
/-! ## C9: periodic join check and bounded re-join -/

/-- The re-join loop issues at most as many join commands as its
remaining budget. -/
lemma joinLoop_count_le (env : Nat → JoinAttemptEnv) :
    ∀ (k n : Nat),
      ((joinLoop env k n).2.countP fun a => a == RakAction.joinCmd) ≤ n := by
  intro k n
  induction n generalizing k with
  | zero => simp [joinLoop]
  | succ n ih =>
    simp only [joinLoop]
    split
    · have hrec := ih (k + 1)
      revert hrec
      simp [List.countP_cons]
    · split
      · simp [List.countP_cons]
      · have hrec := ih (k + 1)
        revert hrec
        simp [List.countP_cons]

/-- When no join command raises, every join in the loop's trace is
followed by the 10-second sleep and a re-check. -/
lemma joinLoop_shape (env : Nat → JoinAttemptEnv)
    (h : ∀ j, (env j).cmdOk = true) :
    ∀ (k n : Nat), joinsFollowedByRecheck (joinLoop env k n).2 = true := by
  intro k n
  induction n generalizing k with
  | zero => rfl
  | succ n ih =>
    simp only [joinLoop]
    rw [if_neg (by simp [h k])]
    split
    · simp [joinsFollowedByRecheck]
    · simpa [joinsFollowedByRecheck] using ih (k + 1)
/-- C9: the sender increments its counter each call, resets it and
consults ensure_joined when it reaches `NJS_CHECK_INTERVAL` (= 10), and
on an ensure_joined failure returns false without touching the AT+SEND
path; ensure_joined issues at most `maxJoinAttempts` (default 2) join
commands, and when no join command raises, each is followed by the
10-second settle sleep and a status re-check. -/
theorem C9_counter_and_join_budget :
    NJS_CHECK_INTERVAL = 10 ∧ defaultMaxJoinAttempts = 2
    ∧ (∀ (st : CommState) (counter : Nat) (ej : Bool) (t : Telemetry) (siteId : Nat)
        (resp late : List PyStr),
        (send_to_chirpstack_model st counter ej t siteId resp late).counter
          = (if NJS_CHECK_INTERVAL ≤ counter + 1 then 0 else counter + 1)
        ∧ (send_to_chirpstack_model st counter ej t siteId resp late).ensureJoinedCalled
          = decide (NJS_CHECK_INTERVAL ≤ counter + 1)
        ∧ (NJS_CHECK_INTERVAL ≤ counter + 1 → ej = false →
            (send_to_chirpstack_model st counter ej t siteId resp late).result = false
            ∧ (send_to_chirpstack_model st counter ej t siteId resp late).atSendSent
                = false))
    ∧ (∀ (njsResp : List PyStr) (env : Nat → JoinAttemptEnv) (m : Nat),
        ((ensure_joined_model njsResp env m).2.countP
            fun a => a == RakAction.joinCmd) ≤ m)
    ∧ (∀ (njsResp : List PyStr) (env : Nat → JoinAttemptEnv) (m : Nat),
        (∀ j, (env j).cmdOk = true) →
        joinsFollowedByRecheck (ensure_joined_model njsResp env m).2 = true) := by
  refine ⟨rfl, rfl, ?_, ?_, ?_⟩
  · intro st counter ej t siteId resp late
    refine ⟨?_, ?_, ?_⟩
    · simp only [send_to_chirpstack_model]
      split <;> (try split) <;> simp
    · simp only [send_to_chirpstack_model]
      split <;> (try split) <;> simp_all
    · intro hc hej
      subst hej
      simp [send_to_chirpstack_model, hc]
  · intro njsResp env m
    simp only [ensure_joined_model]
    split
    · simp
    · split
      · exact joinLoop_count_le env 1 m
      · simp
  · intro njsResp env m h
    simp only [ensure_joined_model]
    split
    · rfl
    · split
      · exact joinLoop_shape env h 1 m
      · rfl

/-- C9 witness: the interval clause at counter 9 with a failing
ensure_joined, and the trace-shape clause with an always-successful
join environment. -/
theorem C9_counter_and_join_budget_witness :
    ((send_to_chirpstack_model ⟨none, []⟩ 9 false
        ⟨0, 0, 0, 0, 0, false, false, false, false⟩ 0x008B [] []).result = false
      ∧ (send_to_chirpstack_model ⟨none, []⟩ 9 false
          ⟨0, 0, 0, 0, 0, false, false, false, false⟩ 0x008B [] []).atSendSent = false)
    ∧ joinsFollowedByRecheck
        (ensure_joined_model ["+NJS:0".toList] (fun _ => ⟨true, []⟩) 2).2 = true :=
  ⟨(C9_counter_and_join_budget.2.2.1 ⟨none, []⟩ 9 false
      ⟨0, 0, 0, 0, 0, false, false, false, false⟩ 0x008B [] []).2.2 (by decide) rfl,
   C9_counter_and_join_budget.2.2.2.2 ["+NJS:0".toList] (fun _ => ⟨true, []⟩) 2
      (fun _ => rfl)⟩
/-! ## C10: uppercase hex payloads -/

/-- Character-level facts about the lowercase hex digits emitted by
`bytes.hex()`: not whitespace, not a space or newline, not `x`/`X`, and
uppercasing yields an uppercase hex digit. -/
lemma hexDigitChar_facts : ∀ n, n < 16 →
    (hexDigitChar n).isWhitespace = false
    ∧ hexDigitChar n ≠ ' ' ∧ hexDigitChar n ≠ '\n'
    ∧ hexDigitChar n ≠ 'x' ∧ hexDigitChar n ≠ 'X'
    ∧ isUpperHexChar (Char.toUpper (hexDigitChar n)) = true := by
  decide

/-- Every character of a `bytes.hex()` encoding of genuine bytes is one
of the sixteen lowercase hex digits. -/
lemma mem_pyBytesHex {bs : List Nat} (hb : ∀ b ∈ bs, b < 256) {c : Char}
    (hc : c ∈ pyBytesHex bs) : ∃ n, n < 16 ∧ c = hexDigitChar n := by
  simp only [pyBytesHex, List.mem_flatMap] at hc
  obtain ⟨b, hbmem, hcmem⟩ := hc
  have hblt : b < 256 := hb b hbmem
  simp only [List.mem_cons, List.not_mem_nil, or_false] at hcmem
  rcases hcmem with rfl | rfl
  · exact ⟨b / 16, by omega, rfl⟩
  · exact ⟨b % 16, by omega, rfl⟩

/-- Stripping is the identity on whitespace-free strings. -/
lemma pyStrip_eq_self {l : PyStr} (h : ∀ c ∈ l, c.isWhitespace = false) :
    pyStrip l = l := by
  have hdrop : ∀ (m : PyStr), (∀ c ∈ m, c.isWhitespace = false) →
      m.dropWhile Char.isWhitespace = m := by
    intro m hm
    cases m with
    | nil => rfl
    | cons a t =>
      rw [List.dropWhile_cons]
      simp [hm a (List.mem_cons_self a t)]
  rw [pyStrip, hdrop l h, hdrop l.reverse (by simpa using h), List.reverse_reverse]

/-- A string of lowercase hex digits does not start with `0x` or `0X`. -/
lemma no_0x_prefix {l : PyStr} (h : ∀ c ∈ l, c ≠ 'x' ∧ c ≠ 'X') :
    "0x".toList.isPrefixOf l = false ∧ "0X".toList.isPrefixOf l = false := by
  cases l with
  | nil => exact ⟨rfl, rfl⟩
  | cons c1 t =>
    cases t with
    | nil => constructor <;> simp [List.isPrefixOf]
    | cons c2 r =>
      have h2 := h c2 (by simp)
      have hx : ('x' == c2) = false := beq_eq_false_iff_ne.mpr (fun he => h2.1 he.symm)
      have hX : ('X' == c2) = false := beq_eq_false_iff_ne.mpr (fun he => h2.2 he.symm)
      constructor <;> simp [List.isPrefixOf, hx, hX]
/-- C10: payloads are transmitted as uppercase hex.  For genuine byte
payloads the normalised form consists of uppercase hex digits only; the
lowercase hex string the sender produces with `payload.hex()` normalises
to exactly the same uppercase string; and `send_data` writes
`AT+SEND=1:` followed by that normalised payload. -/
theorem C10_uppercase_hex_payload (bs : List Nat) (hb : ∀ b ∈ bs, b < 256) :
    (normalize_hex_payload (.bytes bs)).all isUpperHexChar = true
    ∧ normalize_hex_payload (.str (pyBytesHex bs)) = normalize_hex_payload (.bytes bs)
    ∧ (∀ (st : CommState) (resp late : List PyStr),
        (send_data_model st (.str (pyBytesHex bs)) resp late).written
          = "AT+SEND=1:".toList ++ normalize_hex_payload (.bytes bs)) := by
  have hfacts : ∀ c ∈ pyBytesHex bs,
      c.isWhitespace = false ∧ c ≠ ' ' ∧ c ≠ '\n' ∧ c ≠ 'x' ∧ c ≠ 'X'
        ∧ isUpperHexChar (Char.toUpper c) = true := by
    intro c hc
    obtain ⟨n, hn, rfl⟩ := mem_pyBytesHex hb hc
    have hf := hexDigitChar_facts n hn
    exact ⟨hf.1, hf.2.1, hf.2.2.1, hf.2.2.2.1, hf.2.2.2.2.1, hf.2.2.2.2.2⟩
  have hkey : normalize_hex_payload (.str (pyBytesHex bs))
      = normalize_hex_payload (.bytes bs) := by
    have hstrip : pyStrip (pyBytesHex bs) = pyBytesHex bs :=
      pyStrip_eq_self (fun c hc => (hfacts c hc).1)
    have hf1 : (pyBytesHex bs).filter (fun c => c ≠ ' ') = pyBytesHex bs := by
      rw [List.filter_eq_self]
      intro c hc
      simpa using (hfacts c hc).2.1
    have hf2 : (pyBytesHex bs).filter (fun c => c ≠ '\n') = pyBytesHex bs := by
      rw [List.filter_eq_self]
      intro c hc
      simpa using (hfacts c hc).2.2.1
    have hpre := no_0x_prefix (fun c hc => ⟨(hfacts c hc).2.2.2.1, (hfacts c hc).2.2.2.2.1⟩)
    simp only [normalize_hex_payload]
    rw [hstrip, hf1, hf2, hpre.1, hpre.2]
    simp [pyUpper]
  refine ⟨?_, hkey, ?_⟩
  · simp only [normalize_hex_payload, pyUpper, List.all_eq_true]
    intro c hc
    rw [List.mem_map] at hc
    obtain ⟨d, hd, rfl⟩ := hc
    exact (hfacts d hd).2.2.2.2.2
  · intro st resp late
    have hw : (send_data_model st (.str (pyBytesHex bs)) resp late).written
        = atSendCommand (.str (pyBytesHex bs)) := by
      simp only [send_data_model]
      split <;> (try split) <;> rfl
    rw [hw, atSendCommand, hkey]

/-- C10 witness: the theorem applied to the two-byte payload
[0x00, 0x8B]. -/
theorem C10_uppercase_hex_payload_witness :
    (normalize_hex_payload (.bytes [0x00, 0x8B])).all isUpperHexChar = true
    ∧ normalize_hex_payload (.str (pyBytesHex [0x00, 0x8B]))
        = normalize_hex_payload (.bytes [0x00, 0x8B]) :=
  ⟨(C10_uppercase_hex_payload [0x00, 0x8B] (by decide)).1,
   (C10_uppercase_hex_payload [0x00, 0x8B] (by decide)).2.1⟩
